import Mathlib

/-!
Verification of the triangle-mesh / terrain subsystem
(`src/trianglemesh.cpp`, `src/trianglemesh.h`, `src/utilities.h`,
`src/openglview.cpp`) against its natural-language specification.

Machine floats (`GLfloat`, `double`) are embedded as real numbers; `GLuint`
handles are embedded as natural numbers; the 32-bit `int -> unsigned int`
cast in the OBJ loader is embedded as reduction modulo 2^32.  All container
operations mirror the `std::vector` operations of the source.
-/

open Real

noncomputable section

-- ======================
-- === 3D vector type ===
-- ======================

/-- A 3-component vector (`Vec3f` of `vec3.h`), embedded as a real triple. -/
abbrev Vec3 : Type := ℝ × ℝ × ℝ

/-- Componentwise addition of `Vec3f`. -/
def vadd (a b : Vec3) : Vec3 := (a.1 + b.1, a.2.1 + b.2.1, a.2.2 + b.2.2)

/-- Componentwise subtraction of `Vec3f`. -/
def vsub (a b : Vec3) : Vec3 := (a.1 - b.1, a.2.1 - b.2.1, a.2.2 - b.2.2)

/-- The zero vector (`Vec3f::zero()`). -/
def vzero : Vec3 := (0, 0, 0)

/-- Dot product of two 3-vectors (`QVector3D::dotProduct`). -/
def vdot (a b : Vec3) : ℝ := a.1 * b.1 + a.2.1 * b.2.1 + a.2.2 * b.2.2

/-- Modelled from the spec: `vec3.h` (`Vec3f`) is not under `src/`;
cross product of the two edge vectors, as described in section 4.2a of the
specification (the unnormalized cross-product normal of a triangle). -/
def cross (a b : Vec3) : Vec3 :=
  (a.2.1 * b.2.2 - a.2.2 * b.2.1,
   a.2.2 * b.1 - a.1 * b.2.2,
   a.1 * b.2.1 - a.2.1 * b.1)

/-- Euclidean norm of a 3-vector. -/
def vnorm (a : Vec3) : ℝ := Real.sqrt (a.1 * a.1 + a.2.1 * a.2.1 + a.2.2 * a.2.2)

/-- Modelled from the spec: `vec3.h` (`Vec3f::normalize`) is not under
`src/`; divides the vector by its Euclidean length as in section 4.2a
("normalize every vertex normal").  Division by a zero length is the
real-number junk value (each component becomes `0`). -/
def vnormalize (a : Vec3) : Vec3 :=
  (a.1 / vnorm a, a.2.1 / vnorm a, a.2.2 / vnorm a)

-- =======================
-- === 4x4 matrix type ===
-- =======================

/-- A 4x4 real matrix (`QMatrix4x4`), with entry `mRC` in row `R`, column
`C`.  `QMatrix4x4::data()` exposes these entries in column-major order, so
the source's `vp[c*4+r]` is entry `m(r)(c)`. -/
structure Mat4 where
  m00 : ℝ
  m01 : ℝ
  m02 : ℝ
  m03 : ℝ
  m10 : ℝ
  m11 : ℝ
  m12 : ℝ
  m13 : ℝ
  m20 : ℝ
  m21 : ℝ
  m22 : ℝ
  m23 : ℝ
  m30 : ℝ
  m31 : ℝ
  m32 : ℝ
  m33 : ℝ

/-- Matrix product (`QMatrix4x4::operator*`). -/
def matMul (A B : Mat4) : Mat4 where
  m00 := A.m00 * B.m00 + A.m01 * B.m10 + A.m02 * B.m20 + A.m03 * B.m30
  m01 := A.m00 * B.m01 + A.m01 * B.m11 + A.m02 * B.m21 + A.m03 * B.m31
  m02 := A.m00 * B.m02 + A.m01 * B.m12 + A.m02 * B.m22 + A.m03 * B.m32
  m03 := A.m00 * B.m03 + A.m01 * B.m13 + A.m02 * B.m23 + A.m03 * B.m33
  m10 := A.m10 * B.m00 + A.m11 * B.m10 + A.m12 * B.m20 + A.m13 * B.m30
  m11 := A.m10 * B.m01 + A.m11 * B.m11 + A.m12 * B.m21 + A.m13 * B.m31
  m12 := A.m10 * B.m02 + A.m11 * B.m12 + A.m12 * B.m22 + A.m13 * B.m32
  m13 := A.m10 * B.m03 + A.m11 * B.m13 + A.m12 * B.m23 + A.m13 * B.m33
  m20 := A.m20 * B.m00 + A.m21 * B.m10 + A.m22 * B.m20 + A.m23 * B.m30
  m21 := A.m20 * B.m01 + A.m21 * B.m11 + A.m22 * B.m21 + A.m23 * B.m31
  m22 := A.m20 * B.m02 + A.m21 * B.m12 + A.m22 * B.m22 + A.m23 * B.m32
  m23 := A.m20 * B.m03 + A.m21 * B.m13 + A.m22 * B.m23 + A.m23 * B.m33
  m30 := A.m30 * B.m00 + A.m31 * B.m10 + A.m32 * B.m20 + A.m33 * B.m30
  m31 := A.m30 * B.m01 + A.m31 * B.m11 + A.m32 * B.m21 + A.m33 * B.m31
  m32 := A.m30 * B.m02 + A.m31 * B.m12 + A.m32 * B.m22 + A.m33 * B.m32
  m33 := A.m30 * B.m03 + A.m31 * B.m13 + A.m32 * B.m23 + A.m33 * B.m33

/-- The identity matrix (a freshly constructed `QMatrix4x4`). -/
def idMat4 : Mat4 where
  m00 := 1
  m01 := 0
  m02 := 0
  m03 := 0
  m10 := 0
  m11 := 1
  m12 := 0
  m13 := 0
  m20 := 0
  m21 := 0
  m22 := 1
  m23 := 0
  m30 := 0
  m31 := 0
  m32 := 0
  m33 := 1

-- ===========================================
-- === Frustum culling (trianglemesh.cpp) ===
-- ===========================================

/-- A clip plane (struct `Plane` of `trianglemesh.h`): a normal vector `n`
and a scalar `d`. -/
structure Plane where
  n : Vec3
  d : ℝ

/-- Magnitude of a plane's normal, as computed in
`TriangleMesh::boundingBoxIsVisible` (`sqrt(nx*nx + ny*ny + nz*nz)`). -/
def planeMag (pl : Plane) : ℝ :=
  Real.sqrt (pl.n.1 * pl.n.1 + pl.n.2.1 * pl.n.2.1 + pl.n.2.2 * pl.n.2.2)

/-- Normalization of one plane in `TriangleMesh::boundingBoxIsVisible`:
both `n` and `d` are divided by the magnitude of `n`. -/
def normalizePlane (pl : Plane) : Plane where
  n := (pl.n.1 / planeMag pl, pl.n.2.1 / planeMag pl, pl.n.2.2 / planeMag pl)
  d := pl.d / planeMag pl

/-- The six planes extracted from the combined matrix `VP` in
`TriangleMesh::boundingBoxIsVisible` (before normalization), in source
order: left, right, bottom, top, near, far.  `vp[c*4+r]` is `m(r)(c)`. -/
def extractPlanes (M : Mat4) : List Plane :=
  [⟨(M.m30 + M.m00, M.m31 + M.m01, M.m32 + M.m02), M.m33 + M.m03⟩,
   ⟨(M.m30 - M.m00, M.m31 - M.m01, M.m32 - M.m02), M.m33 - M.m03⟩,
   ⟨(M.m30 + M.m10, M.m31 + M.m11, M.m32 + M.m12), M.m33 + M.m13⟩,
   ⟨(M.m30 - M.m10, M.m31 - M.m11, M.m32 - M.m12), M.m33 - M.m13⟩,
   ⟨(M.m30 + M.m20, M.m31 + M.m21, M.m32 + M.m22), M.m33 + M.m23⟩,
   ⟨(M.m30 - M.m20, M.m31 - M.m21, M.m32 - M.m22), M.m33 - M.m23⟩]

/-- `TriangleMesh::isInsideFrustum` applied to a midpoint `p`: the source
returns `false` as soon as `dot(p, plane.n) - plane.d > 0` for some plane,
and `true` otherwise. -/
def isInsideFrustum (planes : List Plane) (p : Vec3) : Prop :=
  ∀ pl ∈ planes, ¬(vdot p pl.n - pl.d > 0)

/-- `TriangleMesh::boundingBoxIsVisible`, with the projection and model-view
matrices of the render state and the bounding-box midpoint passed
explicitly: extract the six planes from `VP = projection * modelView`,
normalize each by the magnitude of its normal, and test the midpoint with
`isInsideFrustum`. -/
def boundingBoxIsVisible (projection modelView : Mat4) (mid : Vec3) : Prop :=
  isInsideFrustum ((extractPlanes (matMul projection modelView)).map normalizePlane) mid

/-- The `QMatrix4x4::perspective(90, 1, 1, 3)` matrix: a standard
perspective projection with a 90 degree vertical field of view, aspect
ratio 1, near plane 1 and far plane 3 (cot(45 degrees) = 1,
-(far+near)/(far-near) = -2, -2*far*near/(far-near) = -3). -/
def perspProj : Mat4 where
  m00 := 1
  m01 := 0
  m02 := 0
  m03 := 0
  m10 := 0
  m11 := 1
  m12 := 0
  m13 := 0
  m20 := 0
  m21 := 0
  m22 := -2
  m23 := -3
  m30 := 0
  m31 := 0
  m32 := -1
  m33 := 0

lemma matMul_perspProj_id : matMul perspProj idMat4 = perspProj := by
  simp [matMul, idMat4, perspProj]

lemma normalized_plane_test_iff (pl : Plane) (p : Vec3) (hm : 0 < planeMag pl) :
    vdot p (normalizePlane pl).n - (normalizePlane pl).d ≤ 0 ↔ vdot p pl.n - pl.d ≤ 0 := by
  have heq : vdot p (normalizePlane pl).n - (normalizePlane pl).d
      = (vdot p pl.n - pl.d) / planeMag pl := by
    unfold vdot normalizePlane
    field_simp
  rw [heq, div_le_iff₀ hm, zero_mul]

/-- C1, counterexample: the claim asserts that a midpoint at the view-space
origin under a standard perspective projection is classified visible; the
code classifies it NOT visible.  With `projection = perspective(90, 1, 1, 3)`
and `modelView = identity`, the extracted near plane is `n = (0, 0, -3)`,
`d = -3`, normalized `n = (0, 0, -1)`, `d = -1`, and the test
`dot(origin, n) - d = 1 > 0` culls the mesh. -/
theorem C1_origin_not_visible : ¬ boundingBoxIsVisible perspProj idMat4 (0, 0, 0) := by
  intro h
  rw [boundingBoxIsVisible, matMul_perspProj_id] at h
  have h5 : (⟨(perspProj.m30 + perspProj.m20, perspProj.m31 + perspProj.m21,
      perspProj.m32 + perspProj.m22), perspProj.m33 + perspProj.m23⟩ : Plane)
      ∈ extractPlanes perspProj := by
    simp [extractPlanes]
  have hx := h _ (List.mem_map_of_mem _ h5)
  apply hx
  have h9 : Real.sqrt 9 = 3 := by
    rw [show (9 : ℝ) = 3 ^ 2 by norm_num]
    exact Real.sqrt_sq (by norm_num)
  simp only [normalizePlane, planeMag, vdot, perspProj]
  norm_num [h9]

/-- C1, amended: `boundingBoxIsVisible` classifies the mesh visible iff for
every one of the 6 planes extracted from `VP = projection * modelView` by
the row identities (with `d` the +w-coefficient), `dot(mid, n) <= d` -- the
code subtracts `d` where the standard inside test adds it, so the accepted
half-spaces are not the standard inside half-spaces, and a midpoint at the
view-space origin under a standard perspective projection is classified
not-visible.  Stated for unnormalized planes under the hypothesis that each
extracted normal has positive magnitude (normalizing by a positive
magnitude does not change the sign of the test). -/
theorem C1_visibility_characterization (proj mv : Mat4) (mid : Vec3)
    (hmag : ∀ pl ∈ extractPlanes (matMul proj mv), 0 < planeMag pl) :
    boundingBoxIsVisible proj mv mid ↔
      ∀ pl ∈ extractPlanes (matMul proj mv), vdot mid pl.n ≤ pl.d := by
  unfold boundingBoxIsVisible isInsideFrustum
  constructor
  · intro h pl hpl
    have hx := h _ (List.mem_map_of_mem _ hpl)
    rw [not_lt] at hx
    have := (normalized_plane_test_iff pl mid (hmag pl hpl)).mp hx
    linarith
  · intro h q hq
    rw [List.mem_map] at hq
    obtain ⟨pl, hpl, rfl⟩ := hq
    rw [not_lt]
    exact (normalized_plane_test_iff pl mid (hmag pl hpl)).mpr (by have := h pl hpl; linarith)

lemma perspProj_planes_mag : ∀ pl ∈ extractPlanes (matMul perspProj idMat4), 0 < planeMag pl := by
  rw [matMul_perspProj_id]
  intro pl hpl
  simp only [extractPlanes, perspProj, List.mem_cons, List.mem_singleton] at hpl
  rcases hpl with h | h | h | h | h | h | h
  all_goals try (subst h; exact Real.sqrt_pos.mpr (by norm_num [planeMag]))
  exact absurd h (List.not_mem_nil pl)

/-- C1, witness: the characterization applied to the concrete standard
perspective projection, the identity model-view matrix and the origin
midpoint, with the six positive-magnitude hypotheses discharged. -/
theorem C1_visibility_characterization_witness :
    (∀ pl ∈ extractPlanes (matMul perspProj idMat4), 0 < planeMag pl) ∧
    (boundingBoxIsVisible perspProj idMat4 (0, 0, 0) ↔
      ∀ pl ∈ extractPlanes (matMul perspProj idMat4), vdot (0, 0, 0) pl.n ≤ pl.d) :=
  ⟨perspProj_planes_mag, C1_visibility_characterization perspProj idMat4 (0, 0, 0) perspProj_planes_mag⟩

-- ==========================================================
-- === GPU handle slots and move semantics (utilities.h) ===
-- ==========================================================

/-- `autoMoved<GLuint>` move construction (`utilities.h`, lines 38-40):
the new wrapper copies `other.val`, then `other.val` is reset to `T()`,
which is `0` for `GLuint`.  The result pair is (value of the newly
constructed wrapper, value left in the moved-from wrapper). -/
def autoMovedMoveCtor (other : ℕ) : ℕ × ℕ := (other, 0)

/-- `autoMoved<GLuint>::operator=(autoMoved&&)` (`utilities.h`, lines
42-46): `swap(other.val, val)`.  The result pair is (value of the
assigned-to wrapper, value left in the moved-from wrapper). -/
def autoMovedMoveAssign (val other : ℕ) : ℕ × ℕ := (other, val)

/-- The fifteen `autoMoved<GLuint>` handle slots of `TriangleMesh`
(`trianglemesh.h`, lines 62-70). -/
structure MeshHandles where
  VAO : ℕ
  VBOv : ℕ
  VBOn : ℕ
  VBOf : ℕ
  VBOc : ℕ
  VBOt : ℕ
  VBOtan : ℕ
  VAObb : ℕ
  VBOvbb : ℕ
  VBOfbb : ℕ
  VAOn : ℕ
  VBOvn : ℕ
  textureID : ℕ
  normalMapID : ℕ
  displacementMapID : ℕ

/-- All fifteen handle slots holding the same value `k`. -/
def handlesAll (k : ℕ) : MeshHandles := ⟨k, k, k, k, k, k, k, k, k, k, k, k, k, k, k⟩

/-- Move construction of a `TriangleMesh` (`TriangleMesh(TriangleMesh&&) =
default`), restricted to its handle slots: each `autoMoved` member is move
constructed.  The result pair is (handles of the new mesh, handles left in
the moved-from mesh). -/
def meshMoveCtor (other : MeshHandles) : MeshHandles × MeshHandles :=
  (⟨(autoMovedMoveCtor other.VAO).1, (autoMovedMoveCtor other.VBOv).1,
    (autoMovedMoveCtor other.VBOn).1, (autoMovedMoveCtor other.VBOf).1,
    (autoMovedMoveCtor other.VBOc).1, (autoMovedMoveCtor other.VBOt).1,
    (autoMovedMoveCtor other.VBOtan).1, (autoMovedMoveCtor other.VAObb).1,
    (autoMovedMoveCtor other.VBOvbb).1, (autoMovedMoveCtor other.VBOfbb).1,
    (autoMovedMoveCtor other.VAOn).1, (autoMovedMoveCtor other.VBOvn).1,
    (autoMovedMoveCtor other.textureID).1, (autoMovedMoveCtor other.normalMapID).1,
    (autoMovedMoveCtor other.displacementMapID).1⟩,
   ⟨(autoMovedMoveCtor other.VAO).2, (autoMovedMoveCtor other.VBOv).2,
    (autoMovedMoveCtor other.VBOn).2, (autoMovedMoveCtor other.VBOf).2,
    (autoMovedMoveCtor other.VBOc).2, (autoMovedMoveCtor other.VBOt).2,
    (autoMovedMoveCtor other.VBOtan).2, (autoMovedMoveCtor other.VAObb).2,
    (autoMovedMoveCtor other.VBOvbb).2, (autoMovedMoveCtor other.VBOfbb).2,
    (autoMovedMoveCtor other.VAOn).2, (autoMovedMoveCtor other.VBOvn).2,
    (autoMovedMoveCtor other.textureID).2, (autoMovedMoveCtor other.normalMapID).2,
    (autoMovedMoveCtor other.displacementMapID).2⟩)

/-- Move assignment of a `TriangleMesh` (`operator=(TriangleMesh&&) =
default`), restricted to its handle slots: each `autoMoved` member is move
assigned (which swaps).  The result pair is (handles of the assigned-to
mesh, handles left in the moved-from mesh). -/
def meshMoveAssign (this other : MeshHandles) : MeshHandles × MeshHandles :=
  (⟨(autoMovedMoveAssign this.VAO other.VAO).1, (autoMovedMoveAssign this.VBOv other.VBOv).1,
    (autoMovedMoveAssign this.VBOn other.VBOn).1, (autoMovedMoveAssign this.VBOf other.VBOf).1,
    (autoMovedMoveAssign this.VBOc other.VBOc).1, (autoMovedMoveAssign this.VBOt other.VBOt).1,
    (autoMovedMoveAssign this.VBOtan other.VBOtan).1, (autoMovedMoveAssign this.VAObb other.VAObb).1,
    (autoMovedMoveAssign this.VBOvbb other.VBOvbb).1, (autoMovedMoveAssign this.VBOfbb other.VBOfbb).1,
    (autoMovedMoveAssign this.VAOn other.VAOn).1, (autoMovedMoveAssign this.VBOvn other.VBOvn).1,
    (autoMovedMoveAssign this.textureID other.textureID).1,
    (autoMovedMoveAssign this.normalMapID other.normalMapID).1,
    (autoMovedMoveAssign this.displacementMapID other.displacementMapID).1⟩,
   ⟨(autoMovedMoveAssign this.VAO other.VAO).2, (autoMovedMoveAssign this.VBOv other.VBOv).2,
    (autoMovedMoveAssign this.VBOn other.VBOn).2, (autoMovedMoveAssign this.VBOf other.VBOf).2,
    (autoMovedMoveAssign this.VBOc other.VBOc).2, (autoMovedMoveAssign this.VBOt other.VBOt).2,
    (autoMovedMoveAssign this.VBOtan other.VBOtan).2, (autoMovedMoveAssign this.VAObb other.VAObb).2,
    (autoMovedMoveAssign this.VBOvbb other.VBOvbb).2, (autoMovedMoveAssign this.VBOfbb other.VBOfbb).2,
    (autoMovedMoveAssign this.VAOn other.VAOn).2, (autoMovedMoveAssign this.VBOvn other.VBOvn).2,
    (autoMovedMoveAssign this.textureID other.textureID).2,
    (autoMovedMoveAssign this.normalMapID other.normalMapID).2,
    (autoMovedMoveAssign this.displacementMapID other.displacementMapID).2⟩)

-- ==================================================
-- === Mesh state (trianglemesh.h CPU-side data) ===
-- ==================================================

/-- The coloring-mode tag (`TriangleMesh::ColoringType`). -/
inductive ColoringType where
  | STATIC_COLOR
  | COLOR_ARRAY
  | TEXTURE
  | BUMP_MAPPING
  deriving DecidableEq

/-- The value of the C `FLT_MAX` constant, `(2 - 2^-23) * 2^127`. -/
def fltMax : ℝ := 2 ^ 128 - 2 ^ 104

/-- The state of a `TriangleMesh` object (`trianglemesh.h`): CPU-side
attribute arrays, draw-mode data, the bounding box, the handle slots, and
whether the OpenGL function pointer `f` is non-null. -/
structure TriangleMesh where
  vertices : List Vec3
  normals : List Vec3
  triangles : List (ℕ × ℕ × ℕ)
  colors : List Vec3
  texCoords : List (ℝ × ℝ)
  tangents : List Vec3
  staticColor : Vec3
  coloringType : ColoringType
  handles : MeshHandles
  withBB : Bool
  withNormals : Bool
  enableDiffuseTexture : Bool
  enableNormalMapping : Bool
  enableDisplacementMapping : Bool
  boundingBoxMin : Vec3
  boundingBoxMax : Vec3
  boundingBoxMid : Vec3
  boundingBoxSize : Vec3
  hasGLFunctions : Bool

/-- `TriangleMesh::cleanupVBO()`: returns immediately when the OpenGL
function pointer is null; otherwise deletes the VAO/VBO objects and resets
those twelve handle slots to `0` (the three texture handles are not
touched). -/
def TriangleMesh.cleanupVBO (m : TriangleMesh) : TriangleMesh :=
  if m.hasGLFunctions then
    { m with handles := { m.handles with
        VAO := 0, VBOv := 0, VBOn := 0, VBOf := 0, VBOc := 0, VBOt := 0,
        VBOtan := 0, VAObb := 0, VBOvbb := 0, VBOfbb := 0, VAOn := 0, VBOvn := 0 } }
  else m

/-- `TriangleMesh::clear()` (`trianglemesh.cpp`, lines 50-68): clears the
`vertices`, `triangles`, `normals`, `colors` and `texCoords` arrays (the
source contains no `tangents.clear()` call), resets the bounding box to
the sentinel, resets the draw-mode data and `textureID`, and finally calls
`cleanupVBO()`. -/
def TriangleMesh.clear (m : TriangleMesh) : TriangleMesh :=
  TriangleMesh.cleanupVBO { m with
    vertices := [], triangles := [], normals := [], colors := [], texCoords := [],
    boundingBoxMin := (fltMax, fltMax, fltMax),
    boundingBoxMax := (-fltMax, -fltMax, -fltMax),
    boundingBoxMid := vzero, boundingBoxSize := vzero,
    coloringType := ColoringType.STATIC_COLOR,
    withBB := false, withNormals := false,
    handles := { m.handles with textureID := 0 } }

/-- A `TriangleMesh` as produced by the constructor
`TriangleMesh(nullptr)`: static color `(1,1,1)`, everything else cleared. -/
def initMesh : TriangleMesh where
  vertices := []
  normals := []
  triangles := []
  colors := []
  texCoords := []
  tangents := []
  staticColor := (1, 1, 1)
  coloringType := ColoringType.STATIC_COLOR
  handles := handlesAll 0
  withBB := false
  withNormals := false
  enableDiffuseTexture := false
  enableNormalMapping := false
  enableDisplacementMapping := false
  boundingBoxMin := (fltMax, fltMax, fltMax)
  boundingBoxMax := (-fltMax, -fltMax, -fltMax)
  boundingBoxMid := vzero
  boundingBoxSize := vzero
  hasGLFunctions := false

/-- C2, counterexample: the claim asserts every move leaves the moved-from
source's handle slots zero.  Move-ASSIGNING a mesh whose slots hold 5 into
a mesh whose slots hold 7 leaves the moved-from source with the
destination's old value 7 (the `autoMoved` assignment operator swaps), not
zero. -/
theorem C2_move_assign_swaps :
    (meshMoveAssign (handlesAll 7) (handlesAll 5)).2 = handlesAll 7 ∧
    (meshMoveAssign (handlesAll 7) (handlesAll 5)).2.VAO ≠ 0 := by
  constructor
  · rfl
  · decide

/-- C2, amended: move construction gives the destination the source's
pre-move handle values and leaves every slot of the moved-from source zero;
move assignment gives the destination the source's pre-move values but
leaves the source with the destination's previous values (zero only when
the destination's slots were zero).  Copying remains statically disallowed
(`TriangleMesh`'s copy operations are `= delete`, a type-level fact not
expressible in this embedding). -/
theorem C2_move_semantics (src dest : MeshHandles) :
    (meshMoveCtor src).1 = src ∧ (meshMoveCtor src).2 = handlesAll 0 ∧
    (meshMoveAssign dest src).1 = src ∧ (meshMoveAssign dest src).2 = dest :=
  ⟨rfl, rfl, rfl, rfl⟩

/-- C4, counterexample: the claim asserts `clear()` empties every CPU-side
attribute array including `tangents`; clearing a mesh whose `tangents`
array is nonempty leaves that array untouched (the source has no
`tangents.clear()` call). -/
theorem C4_clear_keeps_tangents :
    (TriangleMesh.clear { initMesh with tangents := [(1, 2, 3)] }).tangents = [(1, 2, 3)] ∧
    (TriangleMesh.clear { initMesh with tangents := [(1, 2, 3)] }).tangents ≠ [] := by
  constructor
  · rfl
  · intro h
    simp [TriangleMesh.clear, TriangleMesh.cleanupVBO, initMesh] at h

/-- C4, amended: after `clear()` the `vertices`, `triangles`, `normals`,
`colors` and `texCoords` arrays are empty, the `tangents` array is left
unchanged, and the bounding box is reset to the sentinel: every component
of `boundingBoxMin` is `+FLT_MAX` and every component of `boundingBoxMax`
is `-FLT_MAX`. -/
theorem C4_clear_resets (m : TriangleMesh) :
    (m.clear.vertices = [] ∧ m.clear.triangles = [] ∧ m.clear.normals = [] ∧
     m.clear.colors = [] ∧ m.clear.texCoords = []) ∧
    m.clear.tangents = m.tangents ∧
    m.clear.boundingBoxMin = (fltMax, fltMax, fltMax) ∧
    m.clear.boundingBoxMax = (-fltMax, -fltMax, -fltMax) := by
  unfold TriangleMesh.clear TriangleMesh.cleanupVBO
  cases hb : m.hasGLFunctions <;> simp [hb]

-- ======================================================
-- === Normal synthesis (calculateNormalsByArea) ===
-- ======================================================

/-- Scalar multiple of a `Vec3f`. -/
def vscale (c : ℝ) (a : Vec3) : Vec3 := (c * a.1, c * a.2.1, c * a.2.2)

/-- `std::vector::resize(n)`: keeps the first `n` existing elements and
value-initializes (zeroes) any newly created elements.  Existing elements
below the new size are NOT reset. -/
def resizeList (l : List Vec3) (n : ℕ) : List Vec3 :=
  l.take n ++ List.replicate (n - l.length) vzero

/-- One `normals[id] += normal` update.  An out-of-range index is
undefined behaviour in the source; it is embedded as a no-op read/write of
the default element. -/
def addAt (ns : List Vec3) (i : ℕ) (v : Vec3) : List Vec3 :=
  ns.set i (vadd (ns.getD i vzero) v)

/-- `TriangleMesh::calculateNormalsByArea` (`trianglemesh.cpp`, lines
246-264): `normals.resize(vertices.size())`, then for each triangle the
cross product of its two edge vectors is added to the three vertex
accumulators, then every normal is normalized. -/
def TriangleMesh.calculateNormalsByArea (m : TriangleMesh) : TriangleMesh :=
  let ns0 := resizeList m.normals m.vertices.length
  let ns1 := m.triangles.foldl (fun ns tri =>
    let id0 := tri.1
    let id1 := tri.2.1
    let id2 := tri.2.2
    let vec1 := vsub (m.vertices.getD id1 vzero) (m.vertices.getD id0 vzero)
    let vec2 := vsub (m.vertices.getD id2 vzero) (m.vertices.getD id0 vzero)
    let normal := cross vec1 vec2
    addAt (addAt (addAt ns id0 normal) id1 normal) id2 normal) ns0
  { m with normals := ns1.map vnormalize }

-- ===============================================================
-- === Texture coordinates (calculateTexCoordsSphereMapping) ===
-- ===============================================================

/-- The C library `atan2(y, x)`, embedded over the reals: the angle of the
point `(x, y)`; `atan2(0, 0) = 0` (the C result for two positive zeros). -/
def atan2 (y x : ℝ) : ℝ :=
  if 0 < x then Real.arctan (y / x)
  else if x < 0 then
    (if 0 ≤ y then Real.arctan (y / x) + Real.pi else Real.arctan (y / x) - Real.pi)
  else
    (if 0 < y then Real.pi / 2 else if y < 0 then -(Real.pi / 2) else 0)

/-- `TriangleMesh::calculateTexCoordsSphereMapping` (`trianglemesh.cpp`,
lines 266-277): for every vertex, with `dist = vertex - boundingBoxMid`,
`u = (M_1_PI/2) * atan2(dist.x, dist.z) + 0.5` and
`v = M_1_PI * asin(dist.y / sqrt(dist.x^2 + dist.y^2 + dist.z^2))`.
There is no guard for a zero-length `dist`: the division `0 / 0` is taken
as the real-number junk value `0` (at runtime the float result is NaN). -/
def TriangleMesh.calculateTexCoordsSphereMapping (m : TriangleMesh) : TriangleMesh :=
  { m with texCoords := m.vertices.map (fun vtx =>
      let dist := vsub vtx m.boundingBoxMid
      (1 / Real.pi / 2 * atan2 dist.1 dist.2.2 + 0.5,
       1 / Real.pi * Real.arcsin (dist.2.1 /
         Real.sqrt (dist.1 * dist.1 + dist.2.1 * dist.2.1 + dist.2.2 * dist.2.2)))) }

-- ==========================================
-- === OBJ loading (TriangleMesh::loadOBJ) ===
-- ==========================================

/-- One parsed line of an OBJ file, as the `loadOBJ` reader distinguishes
them: a `v` line with three floats, a `vn` line with three floats, an `f`
line with the integers read from the rest of the line, or any other line
(skipped). -/
inductive ObjLine where
  | v (x y z : ℝ)
  | vn (x y z : ℝ)
  | f (nums : List ℤ)
  | other

/-- Index conversion in `loadOBJ`'s face branch (`trianglemesh.cpp`, lines
200-208): a negative index `num` becomes `vertices.size() + 1 + num`; the
1-based result minus one is stored after a cast to `unsigned int`
(reduction modulo `2^32`). -/
def convIdx (vcount : ℕ) (num : ℤ) : ℕ :=
  (((if num < 0 then (vcount : ℤ) + 1 + num else num) - 1) % 2 ^ 32).toNat

/-- One step of `loadOBJ`'s read loop (`trianglemesh.cpp`, lines 162-218):
a `v` line appends a vertex and extends the bounding box, a `vn` line
appends a normal, an `f` line converts its indices and appends one
triangle when there are exactly 3 of them (otherwise only a warning is
printed), and any other line is skipped. -/
def processObjLine (m : TriangleMesh) (line : ObjLine) : TriangleMesh :=
  match line with
  | ObjLine.v x y z =>
    { m with
      vertices := m.vertices ++ [(x, y, z)],
      boundingBoxMin := (min x m.boundingBoxMin.1, min y m.boundingBoxMin.2.1,
        min z m.boundingBoxMin.2.2),
      boundingBoxMax := (max x m.boundingBoxMax.1, max y m.boundingBoxMax.2.1,
        max z m.boundingBoxMax.2.2) }
  | ObjLine.vn x y z => { m with normals := m.normals ++ [(x, y, z)] }
  | ObjLine.f nums =>
    let indices := nums.map (convIdx m.vertices.length)
    if indices.length = 3 then
      { m with triangles := m.triangles ++
        [(indices.getD 0 0, indices.getD 1 0, indices.getD 2 0)] }
    else m
  | ObjLine.other => m

/-- `TriangleMesh::loadOBJ` (`trianglemesh.cpp`, lines 147-238) on an
already-opened file, represented by its parsed lines: `clear()`, process
every line, recompute `boundingBoxMid` and `boundingBoxSize`, synthesize
normals by area when the normal count does not match the vertex count, and
always synthesize texture coordinates (VBO creation is GPU-side). -/
def TriangleMesh.loadOBJ (m : TriangleMesh) (lines : List ObjLine) : TriangleMesh :=
  let m1 := lines.foldl processObjLine m.clear
  let m2 := { m1 with
    boundingBoxMid := vadd (vscale 0.5 m1.boundingBoxMin) (vscale 0.5 m1.boundingBoxMax),
    boundingBoxSize := vsub m1.boundingBoxMax m1.boundingBoxMin }
  let m3 := if m2.normals.length ≠ m2.vertices.length then m2.calculateNormalsByArea else m2
  m3.calculateTexCoordsSphereMapping

-- ==================================================
-- === Heightmap generation (generateHeightmap) ===
-- ==================================================

/-- The per-cell displacement of one fault iteration (`trianglemesh.cpp`,
lines 771-787), with `displacement = 0.1`: `displacementType` 0 adds
`displacement/2 * cos(dist/waveSize * pi)`, 1 adds
`displacement/2 * sin(dist/waveSize * pi)`, and any other value adds
`displacement` when `dist > 0` and `-displacement` otherwise. -/
def faultDelta (displacementType : ℕ) (waveSize dist : ℝ) : ℝ :=
  if displacementType = 0 then 0.1 / 2 * Real.cos (dist / waveSize * Real.pi)
  else if displacementType = 1 then 0.1 / 2 * Real.sin (dist / waveSize * Real.pi)
  else if dist > 0 then 0.1 else -0.1

/-- One fault iteration over the whole grid: every cell `(x, z)` receives
the displacement for `dist = a*x + b*z - c`. -/
def faultIteration (displacementType : ℕ) (waveSize a b c : ℝ)
    (hm : List (List ℝ)) : List (List ℝ) :=
  hm.mapIdx (fun x row => row.mapIdx (fun z h =>
    h + faultDelta displacementType waveSize (a * x + b * z - c)))

/-- `TriangleMesh::generateHeightmap` (`trianglemesh.cpp`, lines 748-792).
The grid starts as `l` rows of `w` value-initialized (zero) doubles; each
of the `iterations` fault iterations draws a raw angle value and a unit
random number from the random stream `rnd` (embedding the two `rand()`
calls: `v = rand()` converted to radians and `rand()/RAND_MAX` in `[0,1]`).
The `int` dimension parameters are embedded on their non-negative range,
the only range on which the `std::vector` constructor is well defined;
the source performs no dimension validation. -/
def generateHeightmap (l w iterations displacementType : ℕ)
    (rnd : ℕ → ℝ × ℝ) : List (List ℝ) :=
  let d := Real.sqrt ((w : ℝ) * (w : ℝ) + (l : ℝ) * (l : ℝ))
  let waveSize := d / 10
  (List.range iterations).foldl (fun hm i =>
    let v := (rnd i).1 * Real.pi / 180
    let a := Real.sin v
    let b := Real.cos v
    let c := (rnd i).2 * d - d / 2
    faultIteration displacementType waveSize a b c hm)
    (List.replicate l (List.replicate w 0))

/-- The error the specification demands for invalid dimensions. -/
inductive HeightmapError where
  | invalidDimension
  deriving DecidableEq

/-- Modelled from the spec: "`length` or `width` < 1 is invalid input
(fails with an InvalidDimension error)" and "Invalid heightmap dimensions
fail with an InvalidDimension error before any allocation".  This is the
heightmap generator the specification describes; the source function
`generateHeightmap` contains no such check. -/
def generateHeightmapSpec (l w iterations displacementType : ℕ)
    (rnd : ℕ → ℝ × ℝ) : Except HeightmapError (List (List ℝ)) :=
  if l < 1 ∨ w < 1 then Except.error HeightmapError.invalidDimension
  else Except.ok (generateHeightmap l w iterations displacementType rnd)

-- =============================================
-- === Camera rotation (OpenGLView) ===
-- =============================================

/-- Truncation toward zero, the rounding used by the C library `fmod`. -/
def truncR (x : ℝ) : ℝ := if 0 ≤ x then (⌊x⌋ : ℝ) else (⌈x⌉ : ℝ)

/-- The C library `fmod(x, y) = x - y * trunc(x / y)`. -/
def fmodR (x y : ℝ) : ℝ := x - y * truncR (x / y)

/-- The camera-orientation state of `OpenGLView`: the yaw angle `angleX`,
the pitch angle `angleY`, and the forward direction `cameraDir`. -/
structure CameraState where
  angleX : ℝ
  angleY : ℝ
  cameraDir : Vec3

/-- `OpenGLView::cameraRotates` (`openglview.cpp`, lines 405-422):
accumulate `angleX` modulo 360, accumulate `angleY` and clamp it with
`max(-70, min(angleY, 70))`, then recompute the forward direction from the
two angles, clamping the vertical component into `[0, 1]` and negating it
when `angleY < 0`. -/
def cameraRotates (st : CameraState) (deltaX deltaY : ℝ) : CameraState :=
  let angleX := fmodR (st.angleX + deltaX) 360
  let angleY := max (-70) (min (st.angleY + deltaY) 70)
  let radX := angleX * Real.pi / 180
  let radY := angleY * Real.pi / 180
  let dirX := Real.sin radX * Real.cos radY
  let dirZ := -Real.cos radX * Real.cos radY
  let dirY0 := max 0 (min (Real.sqrt (1 - dirX * dirX - dirZ * dirZ)) 1)
  let dirY := if angleY < 0 then -dirY0 else dirY0
  { angleX := angleX, angleY := angleY, cameraDir := (dirX, dirY, dirZ) }

/-- The camera direction set by `OpenGLView::setDefaults`:
`QVector3D(0.3, -1.2, -0.8).normalized()`. -/
def setDefaultsCameraDir : Vec3 := vnormalize (0.3, -1.2, -0.8)

/-- The camera state set by `OpenGLView::setDefaults` (`openglview.cpp`,
lines 348-373): `angleX = atan2(dir.x, -dir.z) * 180 / pi` and
`angleY = asin(dir.y) * 180 / pi`. -/
def setDefaultsCamera : CameraState where
  angleX := atan2 setDefaultsCameraDir.1 (-setDefaultsCameraDir.2.2) * 180 / Real.pi
  angleY := Real.arcsin setDefaultsCameraDir.2.1 * 180 / Real.pi
  cameraDir := setDefaultsCameraDir

/-- A sequence of `cameraRotates` calls, given as a list of
(deltaX, deltaY) pairs. -/
def cameraRotateSeq (st : CameraState) (ds : List (ℝ × ℝ)) : CameraState :=
  ds.foldl (fun s d => cameraRotates s d.1 d.2) st

-- ================
-- === Theorems ===
-- ================

lemma foldl_fixed {α β : Type} (g : β → α → β) (x : β) (hg : ∀ a, g x a = x) :
    ∀ L : List α, L.foldl g x = x := by
  intro L
  induction L with
  | nil => rfl
  | cons a L ih => rw [List.foldl_cons, hg, ih]

lemma mapIdx_replicate_nil (l : ℕ) (f : ℕ → List ℝ → List ℝ) (hf : ∀ i, f i [] = []) :
    (List.replicate l ([] : List ℝ)).mapIdx f = List.replicate l [] := by
  induction l generalizing f with
  | zero => rfl
  | succ n ih =>
    rw [List.replicate_succ, List.mapIdx_cons, hf]
    exact congrArg (List.cons []) (ih _ (fun i => hf _))

/-- C3, counterexample: the claim asserts that heightmap generation with
`length < 1` fails with an InvalidDimension error before any allocation.
At `length = 0` the source produces an (empty) heightmap with no failure,
while the generator the specification describes returns the
InvalidDimension error. -/
theorem C3_zero_length_returns_grid :
    generateHeightmap 0 3 5 2 (fun _ => (0, 0)) = [] ∧
    generateHeightmapSpec 0 3 5 2 (fun _ => (0, 0)) =
      Except.error HeightmapError.invalidDimension := by
  constructor
  · unfold generateHeightmap
    exact foldl_fixed _ _ (fun a => rfl) _
  · rfl

/-- C3, amended: `generateHeightmap` performs no dimension validation: with
`length = 0` it returns a grid with zero rows, and with `width = 0` it
returns `length` empty rows, in both cases without any error, for every
iteration count and displacement kind.  (A negative C `int` dimension would
be converted to a huge `size_t` by the `std::vector` constructor -- an
allocation failure, still not an InvalidDimension error.) -/
theorem C3_no_dimension_validation (l w iterations t : ℕ) (rnd : ℕ → ℝ × ℝ) :
    generateHeightmap 0 w iterations t rnd = [] ∧
    generateHeightmap l 0 iterations t rnd = List.replicate l [] := by
  constructor
  · unfold generateHeightmap
    exact foldl_fixed _ _ (fun a => rfl) _
  · unfold generateHeightmap
    refine foldl_fixed _ _ (fun a => ?_) _
    unfold faultIteration
    exact mapIdx_replicate_nil l _ (fun i => rfl)

/-- C7: for every valid `l >= 1`, `w >= 1` and every displacement kind and
random stream, `generateHeightmap` with `iterations = 0` returns exactly
`l` rows of `w` columns in which every elevation is zero. -/
theorem C7_zero_iterations_zero_grid (l w t : ℕ) (rnd : ℕ → ℝ × ℝ) (hl : 1 ≤ l) (hw : 1 ≤ w) :
    generateHeightmap l w 0 t rnd = List.replicate l (List.replicate w 0) ∧
    (generateHeightmap l w 0 t rnd).length = l ∧
    ∀ row ∈ generateHeightmap l w 0 t rnd, row.length = w ∧ ∀ h ∈ row, h = 0 := by
  have h0 : generateHeightmap l w 0 t rnd = List.replicate l (List.replicate w 0) := rfl
  refine ⟨h0, by rw [h0, List.length_replicate], ?_⟩
  intro row hrow
  rw [h0] at hrow
  have hr := List.eq_of_mem_replicate hrow
  subst hr
  exact ⟨List.length_replicate _ _, fun h hh => List.eq_of_mem_replicate hh⟩

/-- C7, witness: the theorem applied at `l = 2`, `w = 3`, displacement
kind 4. -/
theorem C7_zero_iterations_zero_grid_witness :
    1 ≤ 2 ∧ 1 ≤ 3 ∧
    generateHeightmap 2 3 0 4 (fun _ => (0, 0)) = List.replicate 2 (List.replicate 3 0) :=
  ⟨by norm_num, by norm_num,
    (C7_zero_iterations_zero_grid 2 3 4 (fun _ => (0, 0)) (by norm_num) (by norm_num)).1⟩

lemma cameraRotates_angleY_bounds (st : CameraState) (dX dY : ℝ) :
    -70 ≤ (cameraRotates st dX dY).angleY ∧ (cameraRotates st dX dY).angleY ≤ 70 := by
  unfold cameraRotates
  refine ⟨le_max_left _ _, ?_⟩
  exact max_le (by norm_num) (min_le_right _ _)

lemma cameraRotateSeq_angleY_bounds :
    ∀ (ds : List (ℝ × ℝ)) (st : CameraState) (d : ℝ × ℝ),
      -70 ≤ (cameraRotateSeq st (d :: ds)).angleY ∧ (cameraRotateSeq st (d :: ds)).angleY ≤ 70 := by
  intro ds
  induction ds with
  | nil => intro st d; exact cameraRotates_angleY_bounds st d.1 d.2
  | cons e es ih => intro st d; exact ih (cameraRotates st d.1 d.2) e

/-- C8: after every `cameraRotates` call (and hence after each call of any
nonempty call sequence) `angleY` lies in `[-70, 70]`; from any state with
`angleY >= -930` (which includes the `setDefaults` initial state, whose
`angleY = asin(dir.y)*180/pi >= -90`, and by the first part every
post-rotate state) a rotate call with pitch delta `+1000` drives `angleY`
to exactly `70`; and further rotations with nonnegative pitch delta keep it
exactly `70`. -/
theorem C8_pitch_clamp :
    (∀ (st : CameraState) (d : ℝ × ℝ) (ds : List (ℝ × ℝ)),
      -70 ≤ (cameraRotateSeq st (d :: ds)).angleY ∧ (cameraRotateSeq st (d :: ds)).angleY ≤ 70) ∧
    (∀ (st : CameraState) (dX : ℝ), -930 ≤ st.angleY →
      (cameraRotates st dX 1000).angleY = 70) ∧
    (∀ (st : CameraState) (dX dY : ℝ), st.angleY = 70 → 0 ≤ dY →
      (cameraRotates st dX dY).angleY = 70) ∧
    -930 ≤ setDefaultsCamera.angleY := by
  refine ⟨fun st d ds => cameraRotateSeq_angleY_bounds ds st d, ?_, ?_, ?_⟩
  · intro st dX h
    unfold cameraRotates
    rw [min_eq_right (by linarith), max_eq_right (by norm_num)]
  · intro st dX dY h hd
    unfold cameraRotates
    rw [h, min_eq_right (by linarith), max_eq_right (by norm_num)]
  · show -930 ≤ Real.arcsin setDefaultsCameraDir.2.1 * 180 / Real.pi
    have hπ : 0 < Real.pi := Real.pi_pos
    have h1 : -(Real.pi / 2) ≤ Real.arcsin setDefaultsCameraDir.2.1 :=
      Real.neg_pi_div_two_le_arcsin _
    have h2 : -(90 * Real.pi) ≤ Real.arcsin setDefaultsCameraDir.2.1 * 180 := by nlinarith
    have h3 : -(90 * Real.pi) / Real.pi ≤ Real.arcsin setDefaultsCameraDir.2.1 * 180 / Real.pi :=
      (div_le_div_iff_of_pos_right hπ).mpr h2
    have h4 : -(90 * Real.pi) / Real.pi = -90 := by field_simp
    linarith [h3, h4.symm.le]

/-- C8, witness: the `+1000` part applied to the concrete state with
`angleY = 0`. -/
theorem C8_pitch_clamp_witness :
    -930 ≤ ({ angleX := 0, angleY := 0, cameraDir := (0, 0, -1) } : CameraState).angleY ∧
    (cameraRotates { angleX := 0, angleY := 0, cameraDir := (0, 0, -1) } 0 1000).angleY = 70 :=
  ⟨by norm_num, C8_pitch_clamp.2.1 { angleX := 0, angleY := 0, cameraDir := (0, 0, -1) } 0 (by norm_num)⟩

lemma vnorm_vnormalize (a : Vec3) (h : vnorm a ≠ 0) : vnorm (vnormalize a) = 1 := by
  have hS : (0 : ℝ) ≤ a.1 * a.1 + a.2.1 * a.2.1 + a.2.2 * a.2.2 :=
    add_nonneg (add_nonneg (mul_self_nonneg _) (mul_self_nonneg _)) (mul_self_nonneg _)
  have hS0 : a.1 * a.1 + a.2.1 * a.2.1 + a.2.2 * a.2.2 ≠ 0 := by
    intro h0
    apply h
    unfold vnorm
    rw [h0, Real.sqrt_zero]
  unfold vnorm vnormalize vnorm
  rw [div_mul_div_comm, div_mul_div_comm, div_mul_div_comm, Real.mul_self_sqrt hS,
    div_add_div_same, div_add_div_same, div_self hS0, Real.sqrt_one]

/-- C5, amended: `calculateNormalsByArea` resizes the accumulator array to
the vertex count, zeroing only newly created entries (pre-existing entries
keep their values); each triangle's cross-product normal is added to its
three vertices' accumulators and every normal is then normalized.
Consequently, for a 3-vertex, 1-triangle mesh whose `normals` array is
empty beforehand (the case after `clear()`), all three resulting normals
equal the normalized cross product of the triangle's two edge vectors and
are unit length (given a nondegenerate triangle). -/
theorem C5_normals_single_triangle (v0 v1 v2 : Vec3)
    (hn : vnorm (cross (vsub v1 v0) (vsub v2 v0)) ≠ 0) :
    (TriangleMesh.calculateNormalsByArea
        { initMesh with vertices := [v0, v1, v2], triangles := [(0, 1, 2)] }).normals =
      [vnormalize (cross (vsub v1 v0) (vsub v2 v0)),
       vnormalize (cross (vsub v1 v0) (vsub v2 v0)),
       vnormalize (cross (vsub v1 v0) (vsub v2 v0))] ∧
    ∀ nn ∈ (TriangleMesh.calculateNormalsByArea
        { initMesh with vertices := [v0, v1, v2], triangles := [(0, 1, 2)] }).normals,
      vnorm nn = 1 := by
  have hcalc : (TriangleMesh.calculateNormalsByArea
      { initMesh with vertices := [v0, v1, v2], triangles := [(0, 1, 2)] }).normals =
      [vnormalize (cross (vsub v1 v0) (vsub v2 v0)),
       vnormalize (cross (vsub v1 v0) (vsub v2 v0)),
       vnormalize (cross (vsub v1 v0) (vsub v2 v0))] := by
    simp [TriangleMesh.calculateNormalsByArea, initMesh, resizeList, addAt, vadd, vzero]
  refine ⟨hcalc, ?_⟩
  intro nn hnn
  rw [hcalc] at hnn
  simp only [List.mem_cons, List.not_mem_nil, or_false] at hnn
  rcases hnn with h | h | h <;> (subst h; exact vnorm_vnormalize _ hn)

/-- C5, counterexample: the claim asserts all accumulators are initialized
to zero on every invocation.  `normals.resize()` preserves pre-existing
entries: invoked on a 3-vertex, 1-triangle mesh whose `normals` already
holds `(1,0,0)`, the first resulting normal is
`normalize((1,0,0) + cross) = normalize((1,0,1))`, which differs from the
normalized cross product `(0,0,1)` the claim demands. -/
theorem C5_stale_normals_counterexample :
    (TriangleMesh.calculateNormalsByArea
        { initMesh with
          vertices := [(0, 0, 0), (1, 0, 0), (0, 1, 0)],
          triangles := [(0, 1, 2)], normals := [(1, 0, 0)] }).normals =
      [vnormalize (1, 0, 1), vnormalize (0, 0, 1), vnormalize (0, 0, 1)] ∧
    vnormalize ((1 : ℝ), (0 : ℝ), (1 : ℝ)) ≠
      vnormalize (cross (vsub (1, 0, 0) (0, 0, 0)) (vsub (0, 1, 0) (0, 0, 0))) := by
  constructor
  · simp [TriangleMesh.calculateNormalsByArea, initMesh, resizeList, addAt, vadd, vzero,
      cross, vsub]
  · intro h
    have hc : cross (vsub (1, 0, 0) (0, 0, 0)) (vsub (0, 1, 0) (0, 0, 0)) =
        ((0 : ℝ), (0 : ℝ), (1 : ℝ)) := by
      simp [cross, vsub]
    rw [hc] at h
    have h1 : ((1 : ℝ) / vnorm (1, 0, 1)) = (0 : ℝ) / vnorm (0, 0, 1) := congrArg Prod.fst h
    have h2 : Real.sqrt 2 > 0 := Real.sqrt_pos.mpr (by norm_num)
    rw [zero_div] at h1
    have hv : vnorm ((1 : ℝ), (0 : ℝ), (1 : ℝ)) = Real.sqrt 2 := by
      unfold vnorm
      norm_num
    rw [hv] at h1
    have := div_ne_zero (one_ne_zero : (1 : ℝ) ≠ 0) (ne_of_gt h2)
    exact this h1

/-- C6: evaluation of `calculateTexCoordsSphereMapping` at the failing
input, a vertex exactly at the bounding-box midpoint.  The source has no
guard: it computes `u = 0.5` (since `atan2(0,0) = 0`) but
`v = (1/pi) * asin(0/0)`, which is NaN at runtime (the junk value `0` in
this real-number embedding) -- not the `(0.5, 0.5)` the claim asserts. -/
theorem C6_degenerate_texcoords :
    (TriangleMesh.calculateTexCoordsSphereMapping
        { initMesh with vertices := [(1, 2, 3)], boundingBoxMid := (1, 2, 3) }).texCoords =
      [(0.5, 0)] ∧
    ((0.5 : ℝ), (0 : ℝ)) ≠ ((0.5 : ℝ), (0.5 : ℝ)) := by
  constructor
  · simp [TriangleMesh.calculateTexCoordsSphereMapping, initMesh, vsub, atan2,
      Real.arcsin_zero]
  · intro h
    have := congrArg Prod.snd h
    norm_num at this

/-- A polygon file with 4 vertices, one positive-index triangular face, one
malformed 5-index face, and one negative-index triangular face. -/
def objFile9 : List ObjLine :=
  [ObjLine.v 0 0 0, ObjLine.v 1 0 0, ObjLine.v 0 1 0, ObjLine.v 0 0 1,
   ObjLine.f [1, 2, 3], ObjLine.f [1, 2, 3, 4, 1], ObjLine.f [-3, -2, -1],
   ObjLine.other]

/-- C9: a face directive with exactly 3 indices is stored as one triangle
(1-based indices converted to 0-based, a negative index `i` converted via
`vertexCount + 1 + i`, the result cast to `unsigned int`), a face directive
with any other index count leaves the mesh unchanged, and the concrete file
with 4 vertices, two triangular faces (one using negative indices) and one
malformed 5-index face loads to exactly 4 vertices and the 2 expected
triangles. -/
theorem C9_face_parsing :
    (∀ (m : TriangleMesh) (nums : List ℤ), nums.length = 3 →
      (processObjLine m (ObjLine.f nums)).triangles = m.triangles ++
        [((nums.map (convIdx m.vertices.length)).getD 0 0,
          (nums.map (convIdx m.vertices.length)).getD 1 0,
          (nums.map (convIdx m.vertices.length)).getD 2 0)]) ∧
    (∀ (m : TriangleMesh) (nums : List ℤ), nums.length ≠ 3 →
      processObjLine m (ObjLine.f nums) = m) ∧
    (initMesh.loadOBJ objFile9).vertices.length = 4 ∧
    (initMesh.loadOBJ objFile9).triangles = [(0, 1, 2), (1, 2, 3)] ∧
    (initMesh.loadOBJ objFile9).triangles.length = 2 := by
  refine ⟨?_, ?_, rfl, rfl, rfl⟩
  · intro m nums h3
    simp [processObjLine, List.length_map, h3]
  · intro m nums h3
    simp [processObjLine, List.length_map, h3]

/-- C9, witness: the two general face rules applied to concrete faces
`f 1 2 3` (stored) and `f 1 2 3 4 1` (dropped) with their length
hypotheses discharged. -/
theorem C9_face_parsing_witness :
    ([(1 : ℤ), 2, 3].length = 3 ∧
      (processObjLine initMesh (ObjLine.f [1, 2, 3])).triangles = initMesh.triangles ++
        [(([(1 : ℤ), 2, 3].map (convIdx initMesh.vertices.length)).getD 0 0,
          ([(1 : ℤ), 2, 3].map (convIdx initMesh.vertices.length)).getD 1 0,
          ([(1 : ℤ), 2, 3].map (convIdx initMesh.vertices.length)).getD 2 0)]) ∧
    ([(1 : ℤ), 2, 3, 4, 1].length ≠ 3 ∧
      processObjLine initMesh (ObjLine.f [1, 2, 3, 4, 1]) = initMesh) :=
  ⟨⟨rfl, C9_face_parsing.1 initMesh [1, 2, 3] rfl⟩,
   ⟨by decide, C9_face_parsing.2.1 initMesh [1, 2, 3, 4, 1] (by decide)⟩⟩

/-- A polygon file with 3 vertices and a triangular face referencing the
nonexistent vertex number 4. -/
def objFile10 : List ObjLine :=
  [ObjLine.v 0 0 0, ObjLine.v 1 0 0, ObjLine.v 0 1 0, ObjLine.f [1, 2, 4]]

/-- A polygon file with 3 vertices and a triangular face containing the
index 0, which the loader turns into `(unsigned int)(-1) = 4294967295`. -/
def objFile10z : List ObjLine :=
  [ObjLine.v 0 0 0, ObjLine.v 1 0 0, ObjLine.v 0 1 0, ObjLine.f [1, 2, 0]]

/-- C10: `loadOBJ` performs no range validation of face indices: a file
whose face references the nonexistent vertex number 4 among 3 vertices
yields the triangle `(0, 1, 3)` with index `3 >= 3 = vertexCount`, and a
face containing the index 0 yields the triangle `(0, 1, 4294967295)` after
the 1-based-to-0-based conversion and the cast to `unsigned int`. -/
theorem C10_no_index_validation :
    ((initMesh.loadOBJ objFile10).triangles = [(0, 1, 3)] ∧
     (initMesh.loadOBJ objFile10).vertices.length = 3 ∧
     ∃ t ∈ (initMesh.loadOBJ objFile10).triangles,
       (initMesh.loadOBJ objFile10).vertices.length ≤ t.2.2) ∧
    ((initMesh.loadOBJ objFile10z).triangles = [(0, 1, 4294967295)] ∧
     (initMesh.loadOBJ objFile10z).vertices.length = 3) := by
  refine ⟨⟨rfl, rfl, ⟨(0, 1, 3), ?_, ?_⟩⟩, rfl, rfl⟩
  · show (0, 1, 3) ∈ (initMesh.loadOBJ objFile10).triangles
    have h : (initMesh.loadOBJ objFile10).triangles = [(0, 1, 3)] := rfl
    rw [h]
    exact List.mem_singleton_self _
  · show (initMesh.loadOBJ objFile10).vertices.length ≤ 3
    have h : (initMesh.loadOBJ objFile10).vertices.length = 3 := rfl
    rw [h]

/-- C5, witness: the amended theorem applied to the concrete triangle
`(0,0,0), (1,0,0), (0,1,0)`, whose cross product `(0,0,1)` has nonzero
norm. -/
theorem C5_normals_single_triangle_witness :
    vnorm (cross (vsub ((1 : ℝ), (0 : ℝ), (0 : ℝ)) ((0 : ℝ), (0 : ℝ), (0 : ℝ)))
        (vsub ((0 : ℝ), (1 : ℝ), (0 : ℝ)) ((0 : ℝ), (0 : ℝ), (0 : ℝ)))) ≠ 0 ∧
    (TriangleMesh.calculateNormalsByArea
        { initMesh with
          vertices := [(0, 0, 0), (1, 0, 0), (0, 1, 0)],
          triangles := [(0, 1, 2)] }).normals =
      [vnormalize (cross (vsub (1, 0, 0) (0, 0, 0)) (vsub (0, 1, 0) (0, 0, 0))),
       vnormalize (cross (vsub (1, 0, 0) (0, 0, 0)) (vsub (0, 1, 0) (0, 0, 0))),
       vnormalize (cross (vsub (1, 0, 0) (0, 0, 0)) (vsub (0, 1, 0) (0, 0, 0)))] := by
  have hn : vnorm (cross (vsub ((1 : ℝ), (0 : ℝ), (0 : ℝ)) ((0 : ℝ), (0 : ℝ), (0 : ℝ)))
      (vsub ((0 : ℝ), (1 : ℝ), (0 : ℝ)) ((0 : ℝ), (0 : ℝ), (0 : ℝ)))) ≠ 0 := by
    simp [vnorm, cross, vsub, Real.sqrt_one]
  exact ⟨hn, (C5_normals_single_triangle (0, 0, 0) (1, 0, 0) (0, 1, 0) hn).1⟩
